/-
  Verification development for the Tarnfui repository
  (a Kubernetes cost saver that suspends and resumes workloads on a schedule).

  This file contains a shallow embedding, in Lean 4, of the parts of the
  source relevant to the frozen claims:

  * `src/tarnfui/config.py`            — `Weekday`, `TarnfuiConfig` and its validators,
                                         `TarnfuiConfig.from_env`;
  * `src/tarnfui/scheduler.py`         — `Scheduler._parse_time`, `Scheduler.should_be_active`,
                                         `Scheduler.reconcile`, `Scheduler.run_reconciliation_loop`;
  * `src/tarnfui/kubernetes/__init__.py`   — `KubernetesClient.stop_deployments` / `start_deployments`
                                             (forwarding to controller methods by attribute name);
  * `src/tarnfui/kubernetes/controller.py` — the method surface of `KubernetesController`;
  * `src/tarnfui/kubernetes/base.py`       — `KubernetesResource` state persistence
                                             (`save_resource_state`, `get_saved_state`,
                                             `convert_state_from_string`, `_save_annotation`,
                                             `_get_annotation`), the per-resource processing
                                             (`_process_resource`, `_process_manager_if_exists`)
                                             and the pass driver (`_process_resources`);
  * `src/tarnfui/kubernetes/resources/workloads.py`  — `ReplicatedWorkloadResource`;
  * `src/tarnfui/kubernetes/resources/cronjobs.py`   — `CronJobResource` (state only);
  * `src/tarnfui/kubernetes/resources/managers/kustomization.py` — `Kustomization`;
  * `src/tarnfui/kubernetes/resource_manager.py`     — `ResourceManager` and its
                                             `functools.lru_cache`-memoized `is_manager_processed`.

  Machine integers are modelled with `Int`/`Nat` (Python integers are unbounded, so no
  wraparound is needed); fallible Python code is modelled with `Option`/`Except`;
  Python exceptions carry their message as a `String`.  Mutation of cluster objects and
  of handler in-memory caches is modelled by explicit state passing over a `World` record.
-/
import Mathlib

namespace Tarnfui

/-! ## Python decimal strings

`str(n)` for a non-negative Python int, and `int(s)` for a string, are modelled by
`decRepr` / `pyInt?`.  Python's `int()` additionally accepts surrounding whitespace,
an optional `+` sign and underscore separators; those inputs never occur in this
program (annotation values are produced by `str()` on ints that the program itself
computed, and configuration strings are digit groups), so they are not modelled. -/

/-- Fuel-driven digit expansion: the decimal digit characters of `n`, most
significant first, written with `Nat.digitChar` (the same digit-character table
used by Python's `str`).  Any fuel above `n` is sufficient, since `n` shrinks by
a factor of ten per step. -/
def decDigitsAux : Nat → Nat → List Char
  | 0, _ => []
  | fuel + 1, n =>
      if n < 10 then [Nat.digitChar n]
      else decDigitsAux fuel (n / 10) ++ [Nat.digitChar (n % 10)]

/-- The decimal digit characters of `n`, most significant first. -/
def decDigits (n : Nat) : List Char := decDigitsAux (n + 1) n

/-- Python `str(n)` for a non-negative int `n`: its decimal rendering. -/
def decRepr (n : Nat) : String := ⟨decDigits n⟩

/-- Splitting a character list at every occurrence of `sep`; the list of groups
is never empty.  This is Python's `str.split(sep)` for a one-character
separator. -/
def splitOnChar (sep : Char) : List Char → List (List Char)
  | [] => [[]]
  | c :: cs =>
      if c = sep then [] :: splitOnChar sep cs
      else
        match splitOnChar sep cs with
        | [] => [[c]]
        | g :: gs => (c :: g) :: gs

/-- Python `s.split(sep)` for a one-character separator. -/
def pySplit (s : String) (sep : Char) : List String :=
  (splitOnChar sep s.data).map (⟨·⟩)

/-- Python `s.lower()` (ASCII as used by this program). -/
def pyLower (s : String) : String := ⟨s.data.map Char.toLower⟩

/-- Accumulate a digit-character list into the number it denotes. -/
def parseDigits (l : List Char) : Nat :=
  l.foldl (fun a c => 10 * a + (c.toNat - 48)) 0

/-- Python `int(s)` restricted to optionally-signed digit strings; `none` models
`ValueError`. -/
def pyInt? (s : String) : Option Int :=
  match s.data with
  | [] => none
  | c :: cs =>
      if c = '-' then
        if cs ≠ [] ∧ cs.all Char.isDigit then some (-(parseDigits cs : Int)) else none
      else
        if (c :: cs).all Char.isDigit then some (parseDigits (c :: cs) : Int) else none

/-! ## `config.py` -/

/-- `Weekday` enumeration (config.py). -/
inductive Weekday
  | mon | tue | wed | thu | fri | sat | sun
deriving DecidableEq, Repr

/-- `Weekday.to_integer`: 0 is Monday, 6 is Sunday. -/
def Weekday.toInteger : Weekday → Nat
  | .mon => 0
  | .tue => 1
  | .wed => 2
  | .thu => 3
  | .fri => 4
  | .sat => 5
  | .sun => 6

/-- `Weekday(value)` construction from the lowercase abbreviation;
`none` models the `ValueError` raised for an unknown member value. -/
def Weekday.ofValue? : String → Option Weekday
  | "mon" => some .mon
  | "tue" => some .tue
  | "wed" => some .wed
  | "thu" => some .thu
  | "fri" => some .fri
  | "sat" => some .sat
  | "sun" => some .sun
  | _ => none

/-- The `TarnfuiConfig` pydantic model's fields. -/
structure TarnfuiConfig where
  shutdown_time : String
  startup_time : String
  active_days : List Weekday
  timezone : String
  reconciliation_interval : Int
  ns : Option String
deriving Repr, DecidableEq

/-- `TarnfuiConfig.validate_time_format`: splits on `":"`, converts both parts with
`int`, and checks `0 <= hour < 24 and 0 <= minute < 60`; every failure surfaces as
the `ValueError` with the format message (the range `ValueError` raised inside the
`try` block is itself caught by the same `except ValueError`). -/
def validateTimeFormat (v : String) : Except String String :=
  match pySplit v ':' with
  | [hs, ms] =>
      match pyInt? hs, pyInt? ms with
      | some h, some m =>
          if 0 ≤ h ∧ h < 24 ∧ 0 ≤ m ∧ m < 60 then .ok v
          else .error "Time must be in format HH:MM"
      | _, _ => .error "Time must be in format HH:MM"
  | _ => .error "Time must be in format HH:MM"

/-- `TarnfuiConfig.validate_timezone`, parameterized by the pytz timezone database
(an external collaborator), given as the predicate `isKnownTz`. -/
def validateTimezone (isKnownTz : String → Bool) (v : String) : Except String String :=
  if isKnownTz v then .ok v else .error ("Unknown timezone: " ++ v)

/-- Constructing a `TarnfuiConfig` (pydantic `BaseModel` validation): the two field
validators run on `shutdown_time`, `startup_time` and `timezone`; `active_days`,
`reconciliation_interval` and `namespace` have no validator. -/
def mkTarnfuiConfig (isKnownTz : String → Bool) (shutdown startup : String)
    (days : List Weekday) (tz : String) (interval : Int) (ns : Option String) :
    Except String TarnfuiConfig := do
  let shutdown ← validateTimeFormat shutdown
  let startup ← validateTimeFormat startup
  let tz ← validateTimezone isKnownTz tz
  .ok ⟨shutdown, startup, days, tz, interval, ns⟩

/-- The environment variables read by `TarnfuiConfig.from_env`
(`none` = variable not set). -/
structure EnvVars where
  shutdownTime : Option String := none
  startupTime : Option String := none
  timezone : Option String := none
  activeDays : Option String := none
  reconciliationInterval : Option String := none
  namespaceVar : Option String := none

/-- `[Weekday(day.lower()) for day in active_days_str.split(",")]`;
`none` models the `ValueError` when any token is not a weekday value. -/
def parseActiveDays (s : String) : Option (List Weekday) :=
  (pySplit s ',').mapM (fun day => Weekday.ofValue? (pyLower day))

/-- `TarnfuiConfig.from_env`: defaults for unset variables; the `ValueError` from an
unknown active-day token is caught and replaced by the Mon–Fri default; the `int()`
conversion of the interval is *not* guarded, so its `ValueError` propagates. -/
def fromEnv (isKnownTz : String → Bool) (env : EnvVars) : Except String TarnfuiConfig := do
  let shutdown := env.shutdownTime.getD "19:00"
  let startup := env.startupTime.getD "07:00"
  let tz := env.timezone.getD "UTC"
  let activeDaysStr := env.activeDays.getD "mon,tue,wed,thu,fri"
  let days :=
    match parseActiveDays activeDaysStr with
    | some ds => ds
    | none => [.mon, .tue, .wed, .thu, .fri]
  let interval ←
    match pyInt? (env.reconciliationInterval.getD "60") with
    | some i => Except.ok i
    | none => Except.error "invalid literal for int()"
  mkTarnfuiConfig isKnownTz shutdown startup days tz interval env.namespaceVar

/-! ## `scheduler.py`: the time-window decision -/

/-- A Python `datetime.time` value (microseconds are always zero in this program's
comparisons of interest).  The bounds are enforced by the `datetime.time`
constructor. -/
structure TimeOfDay where
  h : Nat
  m : Nat
  s : Nat
  hh : h < 24
  hm : m < 60
  hs : s < 60

/-- Seconds since midnight; on in-range values, comparing by `toSec` coincides with
Python's lexicographic `datetime.time` comparison. -/
def TimeOfDay.toSec (t : TimeOfDay) : Nat := t.h * 3600 + t.m * 60 + t.s

instance : LT TimeOfDay := ⟨fun a b => a.toSec < b.toSec⟩
instance : LE TimeOfDay := ⟨fun a b => a.toSec ≤ b.toSec⟩

instance (a b : TimeOfDay) : Decidable (a < b) := Nat.decLt _ _
instance (a b : TimeOfDay) : Decidable (a ≤ b) := Nat.decLe _ _

/-- `Scheduler._parse_time` followed by the `datetime.time` constructor:
`hour, minute = map(int, time_str.split(":"))`; `none` models the `ValueError`
from unpacking/`int()`/the constructor's range check. -/
def parseTime (timeStr : String) : Option TimeOfDay :=
  match pySplit timeStr ':' with
  | [hs, ms] =>
      match pyInt? hs, pyInt? ms with
      | some h, some m =>
          if hh : 0 ≤ h ∧ h < 24 then
            if hm : 0 ≤ m ∧ m < 60 then
              some ⟨h.toNat, m.toNat, 0, by omega, by omega, by omega⟩
            else none
          else none
      | _, _ => none
  | _ => none

/-- The localized current datetime, as far as `should_be_active` inspects it:
`now.weekday()` (0 = Monday … 6 = Sunday) and `now.time()`. -/
structure Now where
  weekday : Nat
  time : TimeOfDay

/-- `Scheduler.should_be_active`.  `none` models a `ValueError` escaping from
`_parse_time` (impossible for a validated config).  Mirrors the source exactly:
membership of the current day in the active-day integers is checked first; then,
when `shutdown_time < startup_time`, the code returns True iff
`startup_time <= current_time < shutdown_time`, and otherwise returns False iff
`shutdown_time <= current_time or current_time < startup_time`. -/
def shouldBeActive (cfg : TarnfuiConfig) (now : Now) : Option Bool :=
  let activeDayNums := cfg.active_days.map Weekday.toInteger
  if ¬ activeDayNums.contains now.weekday then
    some false
  else
    match parseTime cfg.shutdown_time, parseTime cfg.startup_time with
    | some shutdownTime, some startupTime =>
        if shutdownTime < startupTime then
          if startupTime ≤ now.time ∧ now.time < shutdownTime then
            some true
          else
            some false
        else
          if shutdownTime ≤ now.time ∨ now.time < startupTime then
            some false
          else
            some true
    | _, _ => none

/-! ## `scheduler.py`: `reconcile` and the reconciliation loop

`Scheduler.reconcile` evaluates `should_be_active()` once and branches to
`KubernetesClient.start_deployments` or `stop_deployments`
(kubernetes/__init__.py), each of which forwards to a method of
`KubernetesController` looked up *by attribute name* on the controller object. -/

/-- The two reconciliation passes exposed by `KubernetesController`
(controller.py): `suspend_resources` runs `stop_resources` on every registered
handler, `resume_resources` runs `start_resources` on every registered handler. -/
inductive ControllerPass
  | suspendPass | resumePass
deriving DecidableEq, Repr

/-- Python attribute lookup of a method on a `KubernetesController` instance,
restricted to the methods that run a pass: class `KubernetesController`
(controller.py) defines `suspend_resources` and `resume_resources` (its other
methods — `register_resource`, `get_handler`, `get_resource_state`,
`get_saved_state`, `_register_resources` — run no pass); any other name raises
`AttributeError`, modelled by `none`. -/
def controllerInvoke : String → Option ControllerPass
  | "suspend_resources" => some .suspendPass
  | "resume_resources" => some .resumePass
  | _ => none

/-- Observable outcome of one `Scheduler.reconcile()` call: the controller passes
that actually ran, and the exception escaping the call, if any. -/
structure ReconcileOutcome where
  passes : List ControllerPass
  exn : Option String
deriving DecidableEq, Repr

/-- `KubernetesClient.start_deployments` (kubernetes/__init__.py line 181):
`self.controller.start_resources(["deployments"], namespace=namespace)`. -/
def clientStartDeployments : ReconcileOutcome :=
  match controllerInvoke "start_resources" with
  | some p => ⟨[p], none⟩
  | none => ⟨[], some "AttributeError: KubernetesController object has no attribute start_resources"⟩

/-- `KubernetesClient.stop_deployments` (kubernetes/__init__.py line 172):
`self.controller.stop_resources(["deployments"], namespace=namespace)`. -/
def clientStopDeployments : ReconcileOutcome :=
  match controllerInvoke "stop_resources" with
  | some p => ⟨[p], none⟩
  | none => ⟨[], some "AttributeError: KubernetesController object has no attribute stop_resources"⟩

/-- `Scheduler.reconcile`: `should_be_active()` is evaluated once and its result
(the argument here) selects exactly one of the two client calls. -/
def reconcile (shouldBeActiveResult : Bool) : ReconcileOutcome :=
  if shouldBeActiveResult then clientStartDeployments else clientStopDeployments

/-- Behavior of one tick's `reconcile()` call, as observed by the loop. -/
inductive TickOutcome
  | ok
  | raises (msg : String)
  | keyboardInterrupt
deriving DecidableEq, Repr

/-- How the loop stands after the observed ticks. -/
inductive LoopEnd
  | running
  | interrupted
  | loggedException (msg : String)
deriving DecidableEq, Repr

/-- `Scheduler.run_reconciliation_loop` observed over a finite schedule of tick
behaviors: the `try` block encloses the whole `while True` loop, so control
leaving the loop through an exception reaches the `except` clause and the
function returns.  Result: how many `reconcile()` calls ran, and how the loop
stands at the end of the observation window. -/
def runReconciliationLoop : List TickOutcome → Nat × LoopEnd
  | [] => (0, .running)
  | .ok :: rest =>
      let r := runReconciliationLoop rest
      (r.1 + 1, r.2)
  | .raises m :: _ => (1, .loggedException m)
  | .keyboardInterrupt :: _ => (1, .interrupted)

/-! ## `kubernetes/`: the resource-handler state model

The claims about suspend/resume passes concern three concrete handler kinds:
replica-scaled workloads (`ReplicatedWorkloadResource`, workloads.py, with
`DeploymentResource`/`StatefulSetResource` as instances), `CronJobResource`
(cronjobs.py) and the Flux `Kustomization` manager (managers/kustomization.py).
The generic logic of base.py (`save_resource_state`, `get_saved_state`,
`_process_resource`, `_process_manager_if_exists`, `_process_resources`) is
embedded once per concrete handler it is instantiated at, with that handler's
`get_current_state` / `is_suspended` / `suspend_resource` / `resume_resource` /
`patch_resource` inlined.

Mutation is explicit: a `World` carries the live cluster objects, the audit
events, a log of the successful patch calls, the per-handler in-memory state
caches, and the `ResourceManager` processed-managers cache.  A patch call on a
resource whose key is listed in `failingPatches` raises `ApiException`
(modelling a transport failure); everything else succeeds. -/

/-- A stored resource state: Python int, bool, or plain string
(`KubernetesResource.convert_state_from_string` can produce all three). -/
inductive StateV
  | int (n : Int)
  | bool (b : Bool)
  | str (s : String)
deriving DecidableEq, Repr

/-- Python `str()` on a state value, as used by `save_resource_state`:
decimal rendering for ints, and `"True"`/`"False"` (capitalized) for bools. -/
def pyStr : StateV → String
  | .int n => if n < 0 then ⟨'-' :: decDigits n.natAbs⟩ else decRepr n.toNat
  | .bool b => if b then "True" else "False"
  | .str s => s

/-- `KubernetesResource.convert_state_from_string` (base.py): try `int()` first,
then the lowercased `"true"`/`"false"` literals, else keep the string. -/
def convertStateFromString (s : String) : StateV :=
  match pyInt? s with
  | some n => .int n
  | none =>
      if pyLower s = "true" ∨ pyLower s = "false" then .bool (pyLower s = "true")
      else .str s

/-- Association-list lookup (Python dict read). -/
def lookupA {α : Type} (l : List (String × α)) (k : String) : Option α :=
  (l.find? (fun p => p.1 == k)).map (·.2)

/-- Association-list write (Python dict assignment / strategic-merge of one
annotation key): overwrite the existing entry or append. -/
def insertA {α : Type} (l : List (String × α)) (k : String) (v : α) :
    List (String × α) :=
  match l with
  | [] => [(k, v)]
  | p :: rest => if p.1 == k then (k, v) :: rest else p :: insertA rest k v

/-- A replica-scaled workload object (`V1Deployment`/`V1StatefulSet`):
`spec.replicas` may be absent, and the Flux labels drive manager discovery. -/
structure WorkloadObj where
  name : String
  ns : String
  replicas : Option Int
  annotations : List (String × String)
  labels : List (String × String)
deriving DecidableEq, Repr

/-- A Flux `Kustomization` custom object (a plain dict in the source):
`spec.suspend` read with default `False`. -/
structure KustomizationObj where
  name : String
  ns : String
  suspend : Option Bool
  annotations : List (String × String)
deriving DecidableEq, Repr

/-- A `V1CronJob` object: `spec.suspend` may be absent (`or False`). -/
structure CronJobObj where
  name : String
  ns : String
  suspend : Option Bool
  annotations : List (String × String)
deriving DecidableEq, Repr

/-- One successful `patch_resource` call, by target and body. -/
inductive PatchRec
  | workloadReplicas (key : String) (replicas : Int)
  | workloadAnnot (key ak av : String)
  | kustomizationSuspend (key : String) (suspend : Bool)
  | kustomizationAnnot (key ak av : String)
  | cronJobAnnot (key ak av : String)
deriving DecidableEq, Repr

/-- One audit event recorded against a resource
(`create_suspension_event` / `create_restoration_event`). -/
structure EventRec where
  kind : String
  key : String
  suspension : Bool
  state : StateV
deriving DecidableEq, Repr

/-- The mutable state threaded through the handlers: live cluster objects,
transport-failure injection, patch log, events, the per-handler
`_memory_state` dictionaries, and the `ResourceManager` processed cache
(most recently used first). -/
structure World where
  workloads : List WorkloadObj
  kustomizations : List KustomizationObj
  cronjobs : List CronJobObj
  failingPatches : List String
  patches : List PatchRec
  events : List EventRec
  workloadMem : List (String × StateV)
  kustomizationMem : List (String × StateV)
  cronJobMem : List (String × StateV)
  processedManagers : List String
deriving DecidableEq, Repr

/-- `get_resource_key`: `f"{namespace}/{name}"`. -/
def WorkloadObj.key (r : WorkloadObj) : String := r.ns ++ "/" ++ r.name

/-- `get_resource_key` for a Kustomization. -/
def KustomizationObj.key (m : KustomizationObj) : String := m.ns ++ "/" ++ m.name

/-- `get_resource_key` for a CronJob. -/
def CronJobObj.key (c : CronJobObj) : String := c.ns ++ "/" ++ c.name

/-- `KubernetesResource.STATE_ANNOTATION_KEY`. -/
def STATE_ANNOTATION_KEY : String := "tarnfui.io/original-state"

/-- `ReplicatedWorkloadResource.get_replicas`: `resource.spec.replicas or 0`. -/
def getReplicas (r : WorkloadObj) : Int := r.replicas.getD 0

/-- `ReplicatedWorkloadResource.get_current_state`: the replica count (never
`None`). -/
def getCurrentStateW (r : WorkloadObj) : Option StateV := some (.int (getReplicas r))

/-- `ReplicatedWorkloadResource.is_suspended`: zero replicas. -/
def isSuspendedW (r : WorkloadObj) : Bool := getReplicas r == 0

/-- `Kustomization.get_current_state`: `resource.get("spec", {}).get("suspend", False)`
(never `None`). -/
def getCurrentStateK (m : KustomizationObj) : Option StateV :=
  some (.bool (m.suspend.getD false))

/-- `Kustomization.is_suspended`. -/
def isSuspendedK (m : KustomizationObj) : Bool := m.suspend.getD false

/-- `CronJobResource.get_current_state`: `resource.spec.suspend or False`
(never `None`). -/
def getCurrentStateC (c : CronJobObj) : Option StateV :=
  some (.bool (c.suspend.getD false))

/-- `patch_resource` with body `{"spec": {"replicas": n}}` on a workload:
raises `ApiException` for keys in `failingPatches`, otherwise updates the live
object and logs the patch. -/
def patchWorkloadReplicas (w : World) (r : WorkloadObj) (n : Int) :
    Except String World :=
  if w.failingPatches.contains r.key then .error "ApiException"
  else .ok { w with
    workloads := w.workloads.map
      (fun x => if x.key == r.key then { x with replicas := some n } else x),
    patches := w.patches ++ [.workloadReplicas r.key n] }

/-- `patch_resource` with body `{"metadata": {"annotations": {ak: av}}}` on a
workload. -/
def patchWorkloadAnnot (w : World) (r : WorkloadObj) (ak av : String) :
    Except String World :=
  if w.failingPatches.contains r.key then .error "ApiException"
  else .ok { w with
    workloads := w.workloads.map
      (fun x => if x.key == r.key then { x with annotations := insertA x.annotations ak av } else x),
    patches := w.patches ++ [.workloadAnnot r.key ak av] }

/-- `Kustomization.patch_resource` with body `{"spec": {"suspend": b}}`. -/
def patchKustomizationSuspend (w : World) (m : KustomizationObj) (b : Bool) :
    Except String World :=
  if w.failingPatches.contains m.key then .error "ApiException"
  else .ok { w with
    kustomizations := w.kustomizations.map
      (fun x => if x.key == m.key then { x with suspend := some b } else x),
    patches := w.patches ++ [.kustomizationSuspend m.key b] }

/-- `Kustomization.patch_resource` with an annotation body. -/
def patchKustomizationAnnot (w : World) (m : KustomizationObj) (ak av : String) :
    Except String World :=
  if w.failingPatches.contains m.key then .error "ApiException"
  else .ok { w with
    kustomizations := w.kustomizations.map
      (fun x => if x.key == m.key then { x with annotations := insertA x.annotations ak av } else x),
    patches := w.patches ++ [.kustomizationAnnot m.key ak av] }

/-- `CronJobResource.patch_resource` with an annotation body. -/
def patchCronJobAnnot (w : World) (c : CronJobObj) (ak av : String) :
    Except String World :=
  if w.failingPatches.contains c.key then .error "ApiException"
  else .ok { w with
    cronjobs := w.cronjobs.map
      (fun x => if x.key == c.key then { x with annotations := insertA x.annotations ak av } else x),
    patches := w.patches ++ [.cronJobAnnot c.key ak av] }

/-- `ReplicatedWorkloadResource.set_replicas`: the patch call; an `ApiException`
is logged and re-raised. -/
def setReplicas (w : World) (r : WorkloadObj) (n : Int) : Except String World :=
  patchWorkloadReplicas w r n

/-- `ReplicatedWorkloadResource.suspend_resource`: replicas to 0. -/
def suspendResourceW (w : World) (r : WorkloadObj) : Except String World :=
  setReplicas w r 0

/-- `ReplicatedWorkloadResource.resume_resource`: restore the saved count.  The
handler only ever saves `.int` states for workloads; a non-integer body would be
rejected by the API server, modelled as `ApiException`. -/
def resumeResourceW (w : World) (r : WorkloadObj) (saved : StateV) :
    Except String World :=
  match saved with
  | .int n => setReplicas w r n
  | _ => .error "ApiException"

/-- `Kustomization.suspend_resource`: `spec.suspend` to `True`. -/
def suspendResourceK (w : World) (m : KustomizationObj) : Except String World :=
  patchKustomizationSuspend w m true

/-- `Kustomization.resume_resource`: `suspend_value = saved_state` when the
saved state is a bool, else `False`. -/
def resumeResourceK (w : World) (m : KustomizationObj) (saved : StateV) :
    Except String World :=
  patchKustomizationSuspend w m (match saved with | .bool b => b | _ => false)

/-- `KubernetesResource.save_resource_state` at the workload handler:
memory first, then the annotation write, whose failure is logged and
swallowed. -/
def saveResourceStateW (w : World) (r : WorkloadObj) : World :=
  let currentState := StateV.int (getReplicas r)
  let w1 := { w with workloadMem := insertA w.workloadMem r.key currentState }
  match patchWorkloadAnnot w1 r STATE_ANNOTATION_KEY (pyStr currentState) with
  | .ok w2 => w2
  | .error _ => w1

/-- `save_resource_state` at the Kustomization handler. -/
def saveResourceStateK (w : World) (m : KustomizationObj) : World :=
  let currentState := StateV.bool (m.suspend.getD false)
  let w1 := { w with kustomizationMem := insertA w.kustomizationMem m.key currentState }
  match patchKustomizationAnnot w1 m STATE_ANNOTATION_KEY (pyStr currentState) with
  | .ok w2 => w2
  | .error _ => w1

/-- `save_resource_state` at the CronJob handler. -/
def saveResourceStateC (w : World) (c : CronJobObj) : World :=
  let currentState := StateV.bool (c.suspend.getD false)
  let w1 := { w with cronJobMem := insertA w.cronJobMem c.key currentState }
  match patchCronJobAnnot w1 c STATE_ANNOTATION_KEY (pyStr currentState) with
  | .ok w2 => w2
  | .error _ => w1

/-- `KubernetesResource.get_saved_state` at the workload handler: the in-memory
cache first, then the annotation on the passed object, converted with
`convert_state_from_string`; `None` when both are absent. -/
def getSavedStateW (w : World) (r : WorkloadObj) : Option StateV :=
  match lookupA w.workloadMem r.key with
  | some st => some st
  | none =>
      match lookupA r.annotations STATE_ANNOTATION_KEY with
      | some v => some (convertStateFromString v)
      | none => none

/-- `get_saved_state` at the Kustomization handler (which does not override
`convert_state_from_string`). -/
def getSavedStateK (w : World) (m : KustomizationObj) : Option StateV :=
  match lookupA w.kustomizationMem m.key with
  | some st => some st
  | none =>
      match lookupA m.annotations STATE_ANNOTATION_KEY with
      | some v => some (convertStateFromString v)
      | none => none

/-- `Kustomization.get_resource` via the custom-objects API; a missing object
raises, modelled by `none` (every caller catches it). -/
def fetchKustomization (w : World) (kname kns : String) : Option KustomizationObj :=
  w.kustomizations.find? (fun m => m.key == kns ++ "/" ++ kname)

/-- A fresh read of a workload from the live cluster (`get_resource`). -/
def fetchWorkload (w : World) (key : String) : Option WorkloadObj :=
  w.workloads.find? (fun r => r.key == key)

/-- `Kustomization.find_manager_for_resource` (kustomization.py): the Flux name
label selects the manager (namespace from the namespace label, else the
resource's own); the manager is then fetched to confirm it exists, and a fetch
failure means "no manager found" (fail-open).  `base._find_resource_manager`
iterates the registered `ResourceManager` subclasses, of which `Kustomization`
is the only one. -/
def findManagerForResource (w : World) (r : WorkloadObj) : Option (String × String) :=
  if r.labels.isEmpty then none
  else
    match lookupA r.labels "kustomize.toolkit.fluxcd.io/name" with
    | none => none
    | some kname =>
        let kns := (lookupA r.labels "kustomize.toolkit.fluxcd.io/namespace").getD r.ns
        match fetchKustomization w kname kns with
        | some _ => some (kname, kns)
        | none => none

/-- `KubernetesResource._create_resource_event`: record the audit event; sink
failures are caught inside the helper (the modelled sink does not fail). -/
def createResourceEvent (w : World) (kind key : String) (st : StateV)
    (isSuspension : Bool) : World :=
  { w with events := w.events ++ [⟨kind, key, isSuspension, st⟩] }

/-- `base._process_resource` instantiated at the `Kustomization` handler.  The
leading `_process_manager_if_exists` is a no-op here: Kustomization objects are
plain dicts, which fail `find_manager_for_resource`'s `hasattr(resource,
"metadata")` test, so no manager of a manager is ever found. -/
def processResourceK (w : World) (m : KustomizationObj) (isStopping : Bool) :
    Except String Bool × World :=
  if isStopping then
    match getCurrentStateK m with
    | some _ =>
        if ¬ isSuspendedK m then
          let w1 := saveResourceStateK w m
          match suspendResourceK w1 m with
          | .ok w2 =>
              (.ok true, createResourceEvent w2 "Kustomization" m.key
                (.bool (m.suspend.getD false)) true)
          | .error e => (.error e, w1)
        else (.ok false, w)
    | none => (.ok false, w)
  else
    if isSuspendedK m then
      match getSavedStateK w m with
      | some saved =>
          match resumeResourceK w m saved with
          | .ok w2 => (.ok true, createResourceEvent w2 "Kustomization" m.key saved false)
          | .error e => (.error e, w)
      | none => (.ok false, w)
    else (.ok false, w)

/-- `base._process_manager_if_exists` as called from a workload handler: find a
manager, run the default-`True` `_should_process_resource_by_name_namespace`
check, fetch the manager fresh, process it with the Kustomization handler's
`_process_resource`; every exception inside the `try` is caught and logged. -/
def processManagerIfExists (w : World) (r : WorkloadObj) (isStopping : Bool) : World :=
  match findManagerForResource w r with
  | none => w
  | some (kname, kns) =>
      match fetchKustomization w kname kns with
      | none => w
      | some mobj =>
          match processResourceK w mobj isStopping with
          | (.ok _, w') => w'
          | (.error _, w') => w'

/-- `base._process_resource` instantiated at a replica-scaled workload handler
(kind `Deployment`): cascade to the manager first, then suspend (saving state,
patching replicas to zero, emitting a suspension event) or resume (loading the
saved state, restoring it, emitting a restoration event). -/
def processResourceW (w : World) (r : WorkloadObj) (isStopping : Bool) :
    Except String Bool × World :=
  let w0 := processManagerIfExists w r isStopping
  if isStopping then
    match getCurrentStateW r with
    | some currentState =>
        if ¬ isSuspendedW r then
          let w1 := saveResourceStateW w0 r
          match suspendResourceW w1 r with
          | .ok w2 => (.ok true, createResourceEvent w2 "Deployment" r.key currentState true)
          | .error e => (.error e, w1)
        else (.ok false, w0)
    | none => (.ok false, w0)
  else
    if isSuspendedW r then
      match getSavedStateW w0 r with
      | some saved =>
          match resumeResourceW w0 r saved with
          | .ok w2 => (.ok true, createResourceEvent w2 "Deployment" r.key saved false)
          | .error e => (.error e, w0)
      | none => (.ok false, w0)
    else (.ok false, w0)

/-- `ResourceManager.clear_processed_managers`: `cache_clear()` on the memoized
predicate. -/
def clearProcessedManagers (w : World) : World := { w with processedManagers := [] }

/-- The `for` loop inside `base._process_resources`, on the streamed items:
`total_processed` is incremented for every streamed resource, the default-`True`
`_should_process_resource` check runs, and `_process_resource` decides
`total_affected`.  An exception from `_process_resource` leaves the loop; the
third component records whether that happened. -/
def passLoopW (w : World) (items : List WorkloadObj) (isStopping : Bool)
    (tp ta : Nat) : (Nat × Nat) × World × Bool :=
  match items with
  | [] => ((tp, ta), w, false)
  | r :: rest =>
      match processResourceW w r isStopping with
      | (.ok affected, w') =>
          passLoopW w' rest isStopping (tp + 1) (if affected then ta + 1 else ta)
      | (.error _, w') => ((tp + 1, ta), w', true)

/-- `base._process_resources` at the workload handler: the `try` wraps the whole
loop, so the first escaping per-resource exception aborts the remaining stream
and is then caught and logged; the cache clear after the loop runs only when no
exception occurred; the counts accumulated so far are returned either way. -/
def processResourcesW (w : World) (items : List WorkloadObj) (isStopping : Bool) :
    (Nat × Nat) × World :=
  match passLoopW w items isStopping 0 0 with
  | (counts, w', aborted) =>
      if aborted then (counts, w') else (counts, clearProcessedManagers w')

/-- `KubernetesResource.stop_resources` at the workload handler (the suspend
pass over the streamed items). -/
def stopResources (w : World) (items : List WorkloadObj) : (Nat × Nat) × World :=
  processResourcesW w items true

/-- `KubernetesResource.start_resources` at the workload handler (the resume
pass). -/
def startResources (w : World) (items : List WorkloadObj) : (Nat × Nat) × World :=
  processResourcesW w items false

/-! ## `resource_manager.py`: the memoized processed-managers predicate -/

/-- `ResourceManager._LRU_CACHE_SIZE`. -/
def LRU_CACHE_SIZE : Nat := 100

/-- `ResourceManager.is_manager_processed`, a classmethod whose body is
`return True`, memoized with `functools.lru_cache(maxsize=100)`: the cache is
keyed on the argument; a hit returns the cached value (always `True`) and
refreshes the key, a miss *evaluates the body* — which returns `True` — and
caches it, evicting the least-recently-used key beyond capacity.  The call
therefore returns `True` for every key, cached or not. -/
def isManagerProcessed (cache : List String) (k : String) : Bool × List String :=
  if cache.contains k then (true, k :: cache.erase k)
  else (true, (k :: cache).take LRU_CACHE_SIZE)

/-- `ResourceManager.mark_manager_processed`: calls `is_manager_processed` to
cache the result. -/
def markManagerProcessed (cache : List String) (k : String) : List String :=
  (isManagerProcessed cache k).2

/-- `ResourceManager.process_manager_resource` on a `Kustomization` instance:
guard on `is_manager_processed`, mark, then suspend (saving state first) or
resume the manager and emit the event.  Exceptions from the suspend/resume
patches are not caught here; event-creation failures are. -/
def processManagerResource (w : World) (m : KustomizationObj) (isStopping : Bool) :
    Except String Bool × World :=
  let hitCache := isManagerProcessed w.processedManagers m.key
  let w := { w with processedManagers := hitCache.2 }
  if hitCache.1 then (.ok false, w)
  else
    let w := { w with processedManagers := markManagerProcessed w.processedManagers m.key }
    if isStopping then
      match getCurrentStateK m with
      | some _ =>
          if ¬ isSuspendedK m then
            let w1 := saveResourceStateK w m
            match suspendResourceK w1 m with
            | .ok w2 =>
                (.ok true, createResourceEvent w2 "Kustomization" m.key
                  (.bool (m.suspend.getD false)) true)
            | .error e => (.error e, w1)
          else (.ok true, w)
      | none => (.ok true, w)
    else
      match getSavedStateK w m with
      | some saved =>
          match resumeResourceK w m saved with
          | .ok w2 => (.ok true, createResourceEvent w2 "Kustomization" m.key saved false)
          | .error e => (.error e, w)
      | none => (.ok true, w)

end Tarnfui

open Tarnfui

/-- Configuration used by claim C5: shutdown 19:00, startup 07:00, Mon–Fri. -/
def cfgDefault : TarnfuiConfig :=
  ⟨"19:00", "07:00", [.mon, .tue, .wed, .thu, .fri], "UTC", 60, none⟩

/-- Configuration used by claim C3: shutdown 07:00, startup 19:00 (inverted window). -/
def cfgInverted : TarnfuiConfig :=
  ⟨"07:00", "19:00", [.mon, .tue, .wed, .thu, .fri], "UTC", 60, none⟩

def t0700 : TimeOfDay := ⟨7, 0, 0, by omega, by omega, by omega⟩

def t185959 : TimeOfDay := ⟨18, 59, 59, by omega, by omega, by omega⟩

def t1900 : TimeOfDay := ⟨19, 0, 0, by omega, by omega, by omega⟩

def t065959 : TimeOfDay := ⟨6, 59, 59, by omega, by omega, by omega⟩

/-- A timezone database (pytz stand-in) that knows only `"UTC"`. -/
def utcOnlyTz : String → Bool := (· == "UTC")

/-- A cluster with nothing in it and no injected failures. -/
def emptyWorld : World := ⟨[], [], [], [], [], [], [], [], [], []⟩

/-- A replica-scaled workload named `web` with `n` replicas and no labels. -/
def wlWeb (n : Int) : WorkloadObj := ⟨"web", "default", some n, [], []⟩

/-- A second workload named `api`, no labels. -/
def wlApi (n : Int) : WorkloadObj := ⟨"api", "default", some n, [], []⟩

/-- A CronJob with suspend flag `b`. -/
def cronBackup (b : Bool) : CronJobObj := ⟨"backup", "default", some b, []⟩

/-- A Flux Kustomization with suspend flag `b`. -/
def kustApps (b : Bool) : KustomizationObj := ⟨"apps", "flux-system", some b, []⟩

/-- World for the round-trip claim: the single workload `web` with `n` replicas. -/
def c6World (n : Int) : World := { emptyWorld with workloads := [wlWeb n] }

/-- Expected world after the suspend step (`save_resource_state` then
`suspend_resource`) on `wlWeb n` in `c6World n`, for `n ≥ 0`. -/
def c6Suspended (n : Int) : World :=
  { emptyWorld with
    workloads := [⟨"web", "default", some 0, [(STATE_ANNOTATION_KEY, decRepr n.toNat)], []⟩],
    workloadMem := [("default/web", .int n)],
    patches := [.workloadAnnot "default/web" STATE_ANNOTATION_KEY (decRepr n.toNat),
                .workloadReplicas "default/web" 0] }

/-- The workload `web` as re-read from the cluster after the suspend step. -/
def c6SuspendedObj (n : Int) : WorkloadObj :=
  ⟨"web", "default", some 0, [(STATE_ANNOTATION_KEY, decRepr n.toNat)], []⟩

/-- World for the annotation-value claim: one workload, one CronJob, one
Kustomization. -/
def c8World (n : Int) (b : Bool) : World :=
  { emptyWorld with workloads := [wlWeb n], cronjobs := [cronBackup b],
                    kustomizations := [kustApps b] }

/-- World for the pass-abort claim: patches on `default/web` raise
`ApiException`, patches on `default/api` succeed. -/
def c4World (a b : Int) : World :=
  { emptyWorld with workloads := [wlWeb a, wlApi b], failingPatches := ["default/web"] }

/-- A not-yet-suspended Kustomization managing the children below
(`spec.suspend` absent). -/
def c7Manager : KustomizationObj := ⟨"apps", "flux-system", none, []⟩

/-- A child workload carrying the Flux labels that point at `c7Manager`. -/
def c7Child (nm : String) (n : Int) : WorkloadObj :=
  ⟨nm, "default", some n, [],
    [("kustomize.toolkit.fluxcd.io/name", "apps"),
     ("kustomize.toolkit.fluxcd.io/namespace", "flux-system")]⟩

/-- World for the manager-cascade claim: two children of the same manager. -/
def c7World (n1 n2 : Int) : World :=
  { emptyWorld with workloads := [c7Child "web" n1, c7Child "api" n2],
                    kustomizations := [c7Manager] }

theorem TimeOfDay.lt_def (a b : TimeOfDay) : a < b ↔ a.toSec < b.toSec := Iff.rfl

theorem TimeOfDay.le_def (a b : TimeOfDay) : a ≤ b ↔ a.toSec ≤ b.toSec := Iff.rfl

/-- Claim C5: for shutdown 19:00 / startup 07:00 / active days Mon–Fri,
`should_be_active` is Active at 07:00:00 and 18:59:59 and Inactive at 19:00:00
and 06:59:59 on every active day, and Inactive at every time of day on Saturday
and Sunday. -/
theorem should_be_active_boundary_law :
    (∀ d : Nat, d ∈ [0, 1, 2, 3, 4] →
        shouldBeActive cfgDefault ⟨d, t0700⟩ = some true ∧
        shouldBeActive cfgDefault ⟨d, t185959⟩ = some true ∧
        shouldBeActive cfgDefault ⟨d, t1900⟩ = some false ∧
        shouldBeActive cfgDefault ⟨d, t065959⟩ = some false) ∧
    (∀ t : TimeOfDay,
        shouldBeActive cfgDefault ⟨5, t⟩ = some false ∧
        shouldBeActive cfgDefault ⟨6, t⟩ = some false) := by
  constructor
  · intro d hd
    fin_cases hd <;> exact ⟨rfl, rfl, rfl, rfl⟩
  · intro t
    exact ⟨rfl, rfl⟩

/-- Witness for `should_be_active_boundary_law` at Monday. -/
theorem should_be_active_boundary_law_witness :
    shouldBeActive cfgDefault ⟨0, t0700⟩ = some true :=
  (should_be_active_boundary_law.1 0 (by decide)).1

/-- Claim C3 (code bug): with shutdown 07:00 and startup 19:00 the guard
`startup_time <= current_time < shutdown_time` is unsatisfiable, so the code
returns Inactive at every weekday and every time of day, instead of the
documented wraparound window `[19:00, 24:00) ∪ [00:00, 07:00)`. -/
theorem inverted_window_always_inactive :
    ∀ (d : Nat) (t : TimeOfDay), shouldBeActive cfgInverted ⟨d, t⟩ = some false := by
  intro d t
  have h1 : parseTime cfgInverted.shutdown_time = some t0700 := rfl
  have h2 : parseTime cfgInverted.startup_time = some t1900 := rfl
  simp only [shouldBeActive, h1, h2]
  by_cases hd : (cfgInverted.active_days.map Weekday.toInteger).contains d
  · rw [if_neg (not_not_intro hd), if_pos (show t0700 < t1900 by decide), if_neg]
    intro ⟨ha, hb⟩
    rw [TimeOfDay.le_def] at ha
    rw [TimeOfDay.lt_def] at hb
    simp only [TimeOfDay.toSec, t0700, t1900] at ha hb
    omega
  · rw [if_pos hd]

/-- Claim C1 (code bug): whichever way `should_be_active` comes out,
`reconcile()` invokes *no* controller pass: the backward-compatibility client
forwards to `controller.stop_resources` / `controller.start_resources`, names the
controller does not define, so an `AttributeError` escapes before either
`suspend_resources` or `resume_resources` can run. -/
theorem reconcile_invokes_no_controller_pass :
    ∀ b : Bool, (reconcile b).passes = [] ∧ (reconcile b).exn.isSome := by decide

/-- Claim C2 counterexample: after a tick whose `reconcile()` raises, the loop
does not proceed to the next tick — the single later `ok` tick never runs and
the loop has terminated through the logging `except` clause. -/
theorem loop_first_exception_counterexample :
    (runReconciliationLoop [.raises "boom", .ok]).1 = 1 ∧
    (runReconciliationLoop [.raises "boom", .ok]).2 = .loggedException "boom" ∧
    (runReconciliationLoop [.raises "boom", .ok]).1 ≠ 2 := by decide

/-- Claim C2 amended: an exception escaping `reconcile()` is caught and logged,
but it terminates the reconciliation loop: exactly the ticks before it, plus the
raising tick itself, execute, however the schedule continues afterwards. -/
theorem loop_exception_logged_but_terminates (k : Nat) (m : String)
    (rest : List TickOutcome) :
    runReconciliationLoop (List.replicate k .ok ++ .raises m :: rest) =
      (k + 1, .loggedException m) := by
  induction k with
  | zero => rfl
  | succ n ih =>
      rw [List.replicate_succ, List.cons_append]
      show (let r := runReconciliationLoop
              (List.replicate n TickOutcome.ok ++ TickOutcome.raises m :: rest)
            (r.1 + 1, r.2)) = _
      rw [ih]


/-! ### Decimal round-trip: `int(str(n)) == n` -/

theorem digitChar_spec (d : Nat) (h : d < 10) :
    (Nat.digitChar d).toNat = 48 + d ∧ (Nat.digitChar d).isDigit = true := by
  interval_cases d <;> exact ⟨by decide, by decide⟩

theorem parseDigits_append (l : List Char) (c : Char) :
    parseDigits (l ++ [c]) = 10 * parseDigits l + (c.toNat - 48) := by
  simp [parseDigits, List.foldl_append]

theorem decDigitsAux_spec (n : Nat) :
    ∀ fuel, n < fuel →
      parseDigits (decDigitsAux fuel n) = n ∧
      (decDigitsAux fuel n).all Char.isDigit = true ∧
      decDigitsAux fuel n ≠ [] := by
  induction n using Nat.strong_induction_on with
  | _ n ih =>
    intro fuel hf
    match fuel with
    | f + 1 =>
      by_cases h10 : n < 10
      · have hd := digitChar_spec n h10
        have h1 : decDigitsAux (f + 1) n = [Nat.digitChar n] := by
          simp [decDigitsAux, h10]
        refine ⟨?_, ?_, ?_⟩
        · rw [h1]
          simp only [parseDigits, List.foldl_cons, List.foldl_nil, hd.1]
          omega
        · rw [h1]
          simp [hd.2]
        · rw [h1]
          simp
      · have hdiv : n / 10 < n := Nat.div_lt_self (by omega) (by omega)
        have hfu : n / 10 < f := by omega
        obtain ⟨hp, ha, hne⟩ := ih (n / 10) hdiv f hfu
        have hd := digitChar_spec (n % 10) (Nat.mod_lt _ (by omega))
        have h1 : decDigitsAux (f + 1) n =
            decDigitsAux f (n / 10) ++ [Nat.digitChar (n % 10)] := by
          simp [decDigitsAux, h10]
        refine ⟨?_, ?_, ?_⟩
        · rw [h1, parseDigits_append, hp, hd.1]
          omega
        · rw [h1]
          simp [List.all_append, ha, hd.2]
        · rw [h1]
          simp

theorem pyInt?_decRepr (n : Nat) : pyInt? (decRepr n) = some (n : Int) := by
  obtain ⟨hp, ha, hne⟩ := decDigitsAux_spec n (n + 1) (by omega)
  rcases hdd : decDigitsAux (n + 1) n with _ | ⟨c, cs⟩
  · exact absurd hdd hne
  · rw [hdd] at hp ha
    have hcd : c.isDigit = true := by
      simp [List.all_cons] at ha
      exact ha.1
    have hc : ¬(c = '-') := by
      intro h
      rw [h] at hcd
      exact absurd hcd (by decide)
    show pyInt? ⟨decDigitsAux (n + 1) n⟩ = some (n : Int)
    rw [hdd]
    show (if c = '-' then _ else if (c :: cs).all Char.isDigit then
            some (parseDigits (c :: cs) : Int) else none) = some (n : Int)
    rw [if_neg hc, if_pos ha, hp]

theorem convertStateFromString_decRepr (n : Nat) :
    convertStateFromString (decRepr n) = .int n := by
  simp [convertStateFromString, pyInt?_decRepr]

/-- Claim C9 counterexample: `from_env` with the unrecognized active-day token
`"xyz"` does not fail — it silently replaces the value with the Mon–Fri
default — and a negative reconciliation interval is accepted unchanged. -/
theorem config_silently_defaults_counterexample :
    fromEnv utcOnlyTz { activeDays := some "xyz" } =
      .ok ⟨"19:00", "07:00", [.mon, .tue, .wed, .thu, .fri], "UTC", 60, none⟩ ∧
    fromEnv utcOnlyTz { reconciliationInterval := some "-5" } =
      .ok ⟨"19:00", "07:00", [.mon, .tue, .wed, .thu, .fri], "UTC", -5, none⟩ :=
  ⟨rfl, rfl⟩

/-- Claim C9 amended: malformed time strings and unknown timezone names fail at
construction, and a non-integer interval string makes `from_env` fail; but an
unrecognized active-day token is silently replaced by the Mon–Fri default, and
a negative interval is accepted without any error. -/
theorem config_validation_amended :
    (∀ (k : String → Bool) (days : List Weekday) (tz : String) (i : Int)
        (ns : Option String),
        mkTarnfuiConfig k "25:00" "07:00" days tz i ns =
          .error "Time must be in format HH:MM") ∧
    (∀ (days : List Weekday) (i : Int) (ns : Option String),
        mkTarnfuiConfig (fun _ => false) "19:00" "07:00" days "Mars/Olympus" i ns =
          .error "Unknown timezone: Mars/Olympus") ∧
    fromEnv utcOnlyTz { reconciliationInterval := some "sixty" } =
      .error "invalid literal for int()" ∧
    (∃ cfg, fromEnv utcOnlyTz { activeDays := some "xyz" } = .ok cfg ∧
            cfg.active_days = [.mon, .tue, .wed, .thu, .fri]) ∧
    (∃ cfg, fromEnv utcOnlyTz { reconciliationInterval := some "-5" } = .ok cfg ∧
            cfg.reconciliation_interval = -5) :=
  ⟨fun _ _ _ _ _ => rfl, fun _ _ _ => rfl, rfl, ⟨_, rfl, rfl⟩, ⟨_, rfl, rfl⟩⟩

/-- Claim C8 counterexample: saving the state of an unsuspended Kustomization
writes the annotation value `"False"` — Python's `str(False)` — which is
neither of the literal strings `"true"`/`"false"` the claim names. -/
theorem annotation_literal_counterexample :
    (saveResourceStateK (c8World 3 false) (kustApps false)).kustomizations =
      [⟨"apps", "flux-system", some false, [(STATE_ANNOTATION_KEY, "False")]⟩] ∧
    "False" ≠ "false" ∧ "False" ≠ "true" :=
  ⟨rfl, by decide, by decide⟩

/-- Claim C8 amended: the `<domain>/original-state` annotation value written by
`save_resource_state` is the decimal rendering of the replica count for
replica-scaled kinds, and Python's bool rendering `"True"`/`"False"`
(capitalized, read back case-insensitively) for the suspend-flag kinds CronJob
and Kustomization. -/
theorem annotation_value_amended :
    (∀ n : Nat,
        (saveResourceStateW (c8World n true) (wlWeb n)).workloads =
          [⟨"web", "default", some n, [(STATE_ANNOTATION_KEY, decRepr n)], []⟩]) ∧
    (∀ b : Bool,
        (saveResourceStateC (c8World 3 b) (cronBackup b)).cronjobs =
          [⟨"backup", "default", some b,
            [(STATE_ANNOTATION_KEY, if b then "True" else "False")]⟩]) ∧
    (∀ b : Bool,
        (saveResourceStateK (c8World 3 b) (kustApps b)).kustomizations =
          [⟨"apps", "flux-system", some b,
            [(STATE_ANNOTATION_KEY, if b then "True" else "False")]⟩]) := by
  refine ⟨?_, ?_, ?_⟩
  · intro n
    have h0 : ¬((n : Int) < 0) := by omega
    simp [saveResourceStateW, patchWorkloadAnnot, c8World, emptyWorld, wlWeb,
      getReplicas, pyStr, h0, insertA, WorkloadObj.key, Int.toNat_natCast]
  · intro b
    simp [saveResourceStateC, patchCronJobAnnot, c8World, emptyWorld, cronBackup,
      pyStr, insertA, CronJobObj.key]
  · intro b
    simp [saveResourceStateK, patchKustomizationAnnot, c8World, emptyWorld,
      kustApps, pyStr, insertA, KustomizationObj.key]

/-- Claim C10: the lru_cache-memoized `is_manager_processed` returns `True` for
every key — on a cold cache, after `clear_processed_managers`, and whether or
not `mark_manager_processed` ever ran — because the memoized body is
`return True`; consequently `process_manager_resource` always takes its
already-processed early return, reporting `False` and leaving the cluster,
events, patches and memories untouched (only the cache mutates). -/
theorem is_manager_processed_always_true :
    (∀ (cache : List String) (k : String), (isManagerProcessed cache k).1 = true) ∧
    (∀ k : String, (isManagerProcessed [] k).1 = true) ∧
    (∀ (w : World) (k : String),
        (isManagerProcessed (clearProcessedManagers w).processedManagers k).1 = true) ∧
    (∀ (w : World) (m : KustomizationObj) (isStopping : Bool),
        processManagerResource w m isStopping =
          (.ok false,
            { w with processedManagers := (isManagerProcessed w.processedManagers m.key).2 })) := by
  have hbase : ∀ (cache : List String) (k : String),
      (isManagerProcessed cache k).1 = true := by
    intro cache k
    unfold isManagerProcessed
    split <;> rfl
  refine ⟨hbase, fun k => hbase _ _, fun w k => hbase _ _, ?_⟩
  intro w m b
  simp only [processManagerResource, hbase, if_true]

/-- Claim C6: for a replica-scaled resource with `n > 0` replicas, the suspend
step (`save_resource_state` then `suspend_resource`) followed by the resume
step (`get_saved_state` then `resume_resource`) restores exactly `n` replicas —
both when the saved state comes from the in-memory fallback cache, and when the
memory entry is absent and it is recovered from the state annotation. -/
theorem workload_suspend_resume_roundtrip (n : Int) (h : 0 < n) :
    suspendResourceW (saveResourceStateW (c6World n) (wlWeb n)) (wlWeb n) =
      .ok (c6Suspended n) ∧
    fetchWorkload (c6Suspended n) (wlWeb n).key = some (c6SuspendedObj n) ∧
    isSuspendedW (c6SuspendedObj n) = true ∧
    getSavedStateW (c6Suspended n) (c6SuspendedObj n) = some (.int n) ∧
    (∃ w3, resumeResourceW (c6Suspended n) (c6SuspendedObj n) (.int n) = .ok w3 ∧
      (fetchWorkload w3 (wlWeb n).key).map (·.replicas) = some (some n)) ∧
    getSavedStateW { c6Suspended n with workloadMem := [] } (c6SuspendedObj n) =
      some (.int n) ∧
    (∃ w3, resumeResourceW { c6Suspended n with workloadMem := [] }
        (c6SuspendedObj n) (.int n) = .ok w3 ∧
      (fetchWorkload w3 (wlWeb n).key).map (·.replicas) = some (some n)) := by
  have h0 : ¬(n < 0) := by omega
  have hps : pyStr (.int n) = decRepr n.toNat := by
    simp only [pyStr, if_neg h0]
  have hcv : convertStateFromString (decRepr n.toNat) = .int n := by
    rw [convertStateFromString_decRepr, Int.toNat_of_nonneg (by omega)]
  refine ⟨?_, ?_, ?_, ?_, ⟨_, rfl, ?_⟩, ?_, ⟨_, rfl, ?_⟩⟩
  · simp [saveResourceStateW, patchWorkloadAnnot, suspendResourceW, setReplicas,
      patchWorkloadReplicas, getReplicas, c6World, emptyWorld, wlWeb, WorkloadObj.key,
      insertA, hps, c6Suspended]
  · simp [fetchWorkload, c6Suspended, c6SuspendedObj, wlWeb, WorkloadObj.key, emptyWorld]
  · simp [isSuspendedW, getReplicas, c6SuspendedObj]
  · simp [getSavedStateW, c6Suspended, c6SuspendedObj, emptyWorld, lookupA,
      WorkloadObj.key]
  · simp [resumeResourceW, setReplicas, patchWorkloadReplicas, fetchWorkload,
      c6Suspended, c6SuspendedObj, emptyWorld, wlWeb, WorkloadObj.key]
  · simp [getSavedStateW, c6Suspended, c6SuspendedObj, emptyWorld, lookupA,
      WorkloadObj.key, hcv]
  · simp [resumeResourceW, setReplicas, patchWorkloadReplicas, fetchWorkload,
      c6Suspended, c6SuspendedObj, emptyWorld, wlWeb, WorkloadObj.key]

/-- Witness for `workload_suspend_resume_roundtrip` at `n = 3`. -/
theorem workload_suspend_resume_roundtrip_witness :
    (0 : Int) < 3 ∧
    (suspendResourceW (saveResourceStateW (c6World 3) (wlWeb 3)) (wlWeb 3) =
       .ok (c6Suspended 3) ∧
     fetchWorkload (c6Suspended 3) (wlWeb 3).key = some (c6SuspendedObj 3) ∧
     isSuspendedW (c6SuspendedObj 3) = true ∧
     getSavedStateW (c6Suspended 3) (c6SuspendedObj 3) = some (.int 3) ∧
     (∃ w3, resumeResourceW (c6Suspended 3) (c6SuspendedObj 3) (.int 3) = .ok w3 ∧
       (fetchWorkload w3 (wlWeb 3).key).map (·.replicas) = some (some 3)) ∧
     getSavedStateW { c6Suspended 3 with workloadMem := [] } (c6SuspendedObj 3) =
       some (.int 3) ∧
     (∃ w3, resumeResourceW { c6Suspended 3 with workloadMem := [] }
         (c6SuspendedObj 3) (.int 3) = .ok w3 ∧
       (fetchWorkload w3 (wlWeb 3).key).map (·.replicas) = some (some 3))) :=
  ⟨by decide, workload_suspend_resume_roundtrip 3 (by decide)⟩

/-- Claim C4 counterexample: with a transport failure on `default/web`, the
suspend pass stops at that first resource — the exception from its replica
patch aborts the loop, is caught at pass level, and `default/api` is never
processed: counts come back `(1, 0)`, not the `(2, 1)` that continuing with the
next streamed resource would produce, and no patch is ever applied. -/
theorem pass_abort_counterexample :
    (stopResources (c4World 3 2) [wlWeb 3, wlApi 2]).1 = (1, 0) ∧
    (stopResources (c4World 3 2) [wlWeb 3, wlApi 2]).2.patches = [] ∧
    fetchWorkload (stopResources (c4World 3 2) [wlWeb 3, wlApi 2]).2 "default/api" =
      some (wlApi 2) ∧
    (stopResources (c4World 3 2) [wlWeb 3, wlApi 2]).1 ≠ (2, 1) :=
  ⟨by decide, by decide, by decide, by decide⟩

/-- Claim C4 amended: a per-resource exception (here, the patch failure while
suspending the first workload) is caught and logged at pass level — it does not
propagate out of the pass, which still returns counts — but it aborts the
remaining streamed resources instead of continuing with the next one: the
counts are those accumulated through the failing resource, and the second
workload is left untouched. -/
theorem pass_abort_amended (a b : Int) (ha : 0 < a) :
    stopResources (c4World a b) [wlWeb a, wlApi b] =
      ((1, 0), { c4World a b with workloadMem := [("default/web", .int a)] }) := by
  have hb : ((a : Int) == 0) = false := by
    simp only [beq_eq_false_iff_ne]
    omega
  simp [stopResources, processResourcesW, passLoopW, processResourceW,
    processManagerIfExists, findManagerForResource, getCurrentStateW, isSuspendedW,
    getReplicas, saveResourceStateW, patchWorkloadAnnot, suspendResourceW,
    setReplicas, patchWorkloadReplicas, c4World, emptyWorld, wlWeb, wlApi,
    WorkloadObj.key, insertA, hb]

/-- Witness for `pass_abort_amended` at replica counts `3` and `2`. -/
theorem pass_abort_amended_witness :
    (0 : Int) < 3 ∧
    stopResources (c4World 3 2) [wlWeb 3, wlApi 2] =
      ((1, 0), { c4World 3 2 with workloadMem := [("default/web", .int 3)] }) :=
  ⟨by decide, pass_abort_amended 3 2 (by decide)⟩

/-- Claim C7: in a suspend pass, the first child of a not-yet-processed manager
triggers exactly one suspension of the manager (one `spec.suspend := true`
patch, one audit event) and exactly one suspension of the child (one replica
patch to zero, one audit event); a second child of the same manager later in
the same pass adds its own suspension but zero additional manager suspensions —
the manager, refetched live, is already suspended and is skipped. -/
theorem manager_cascade_once (n1 n2 : Int) (h1 : 0 < n1) (h2 : 0 < n2) :
    ((stopResources (c7World n1 n2) [c7Child "web" n1]).2.patches =
        [.kustomizationAnnot "flux-system/apps" STATE_ANNOTATION_KEY "False",
         .kustomizationSuspend "flux-system/apps" true,
         .workloadAnnot "default/web" STATE_ANNOTATION_KEY (decRepr n1.toNat),
         .workloadReplicas "default/web" 0] ∧
     (stopResources (c7World n1 n2) [c7Child "web" n1]).2.events =
        [⟨"Kustomization", "flux-system/apps", true, .bool false⟩,
         ⟨"Deployment", "default/web", true, .int n1⟩]) ∧
    ((stopResources (c7World n1 n2) [c7Child "web" n1, c7Child "api" n2]).2.patches =
        [.kustomizationAnnot "flux-system/apps" STATE_ANNOTATION_KEY "False",
         .kustomizationSuspend "flux-system/apps" true,
         .workloadAnnot "default/web" STATE_ANNOTATION_KEY (decRepr n1.toNat),
         .workloadReplicas "default/web" 0,
         .workloadAnnot "default/api" STATE_ANNOTATION_KEY (decRepr n2.toNat),
         .workloadReplicas "default/api" 0] ∧
     (stopResources (c7World n1 n2) [c7Child "web" n1, c7Child "api" n2]).2.events =
        [⟨"Kustomization", "flux-system/apps", true, .bool false⟩,
         ⟨"Deployment", "default/web", true, .int n1⟩,
         ⟨"Deployment", "default/api", true, .int n2⟩] ∧
     (stopResources (c7World n1 n2)
         [c7Child "web" n1, c7Child "api" n2]).2.patches.count
        (.kustomizationSuspend "flux-system/apps" true) = 1) := by
  have hb1 : ((n1 : Int) == 0) = false := by
    simp only [beq_eq_false_iff_ne]
    omega
  have hb2 : ((n2 : Int) == 0) = false := by
    simp only [beq_eq_false_iff_ne]
    omega
  have hps1 : pyStr (.int n1) = decRepr n1.toNat := by
    simp only [pyStr, if_neg (show ¬(n1 < 0) by omega)]
  have hps2 : pyStr (.int n2) = decRepr n2.toNat := by
    simp only [pyStr, if_neg (show ¬(n2 < 0) by omega)]
  have hpsb : pyStr (.bool false) = "False" := rfl
  have hk1 : ("flux-system" : String) ++ "/" ++ "apps" = "flux-system/apps" := rfl
  have hk2 : ("default" : String) ++ "/" ++ "web" = "default/web" := rfl
  have hk3 : ("default" : String) ++ "/" ++ "api" = "default/api" := rfl
  have hFirst :
      stopResources (c7World n1 n2) [c7Child "web" n1] =
        ((1, 1),
         { emptyWorld with
           workloads :=
             [⟨"web", "default", some 0, [(STATE_ANNOTATION_KEY, decRepr n1.toNat)],
               [("kustomize.toolkit.fluxcd.io/name", "apps"),
                ("kustomize.toolkit.fluxcd.io/namespace", "flux-system")]⟩,
              c7Child "api" n2],
           kustomizations := [⟨"apps", "flux-system", some true,
             [(STATE_ANNOTATION_KEY, "False")]⟩],
           patches :=
             [.kustomizationAnnot "flux-system/apps" STATE_ANNOTATION_KEY "False",
              .kustomizationSuspend "flux-system/apps" true,
              .workloadAnnot "default/web" STATE_ANNOTATION_KEY (decRepr n1.toNat),
              .workloadReplicas "default/web" 0],
           events :=
             [⟨"Kustomization", "flux-system/apps", true, .bool false⟩,
              ⟨"Deployment", "default/web", true, .int n1⟩],
           workloadMem := [("default/web", .int n1)],
           kustomizationMem := [("flux-system/apps", .bool false)] }) := by
    simp [stopResources, processResourcesW, passLoopW, processResourceW,
      processManagerIfExists, findManagerForResource, fetchKustomization,
      processResourceK, getCurrentStateK, isSuspendedK, saveResourceStateK,
      patchKustomizationAnnot, patchKustomizationSuspend, suspendResourceK,
      getCurrentStateW, isSuspendedW, getReplicas, saveResourceStateW,
      patchWorkloadAnnot, suspendResourceW, setReplicas, patchWorkloadReplicas,
      createResourceEvent, clearProcessedManagers, c7World, c7Child, c7Manager,
      emptyWorld, WorkloadObj.key, KustomizationObj.key, lookupA, insertA,
      hb1, hb2, hps1, hps2, hpsb, hk1, hk2, hk3]
  have hFull :
      stopResources (c7World n1 n2) [c7Child "web" n1, c7Child "api" n2] =
        ((2, 2),
         { emptyWorld with
           workloads :=
             [⟨"web", "default", some 0, [(STATE_ANNOTATION_KEY, decRepr n1.toNat)],
               [("kustomize.toolkit.fluxcd.io/name", "apps"),
                ("kustomize.toolkit.fluxcd.io/namespace", "flux-system")]⟩,
              ⟨"api", "default", some 0, [(STATE_ANNOTATION_KEY, decRepr n2.toNat)],
               [("kustomize.toolkit.fluxcd.io/name", "apps"),
                ("kustomize.toolkit.fluxcd.io/namespace", "flux-system")]⟩],
           kustomizations := [⟨"apps", "flux-system", some true,
             [(STATE_ANNOTATION_KEY, "False")]⟩],
           patches :=
             [.kustomizationAnnot "flux-system/apps" STATE_ANNOTATION_KEY "False",
              .kustomizationSuspend "flux-system/apps" true,
              .workloadAnnot "default/web" STATE_ANNOTATION_KEY (decRepr n1.toNat),
              .workloadReplicas "default/web" 0,
              .workloadAnnot "default/api" STATE_ANNOTATION_KEY (decRepr n2.toNat),
              .workloadReplicas "default/api" 0],
           events :=
             [⟨"Kustomization", "flux-system/apps", true, .bool false⟩,
              ⟨"Deployment", "default/web", true, .int n1⟩,
              ⟨"Deployment", "default/api", true, .int n2⟩],
           workloadMem := [("default/web", .int n1), ("default/api", .int n2)],
           kustomizationMem := [("flux-system/apps", .bool false)] }) := by
    simp [stopResources, processResourcesW, passLoopW, processResourceW,
      processManagerIfExists, findManagerForResource, fetchKustomization,
      processResourceK, getCurrentStateK, isSuspendedK, saveResourceStateK,
      patchKustomizationAnnot, patchKustomizationSuspend, suspendResourceK,
      getCurrentStateW, isSuspendedW, getReplicas, saveResourceStateW,
      patchWorkloadAnnot, suspendResourceW, setReplicas, patchWorkloadReplicas,
      createResourceEvent, clearProcessedManagers, c7World, c7Child, c7Manager,
      emptyWorld, WorkloadObj.key, KustomizationObj.key, lookupA, insertA,
      hb1, hb2, hps1, hps2, hpsb, hk1, hk2, hk3]
  refine ⟨⟨?_, ?_⟩, ?_, ?_, ?_⟩
  · rw [hFirst]
  · rw [hFirst]
  · rw [hFull]
  · rw [hFull]
  · rw [hFull]
    simp [List.count_cons]

/-- Witness for `manager_cascade_once` at replica counts `3` and `2`. -/
theorem manager_cascade_once_witness :
    (0 : Int) < 3 ∧ (0 : Int) < 2 ∧
    (stopResources (c7World 3 2)
        [c7Child "web" 3, c7Child "api" 2]).2.patches.count
      (.kustomizationSuspend "flux-system/apps" true) = 1 :=
  ⟨by decide, by decide, (manager_cascade_once 3 2 (by decide) (by decide)).2.2.2⟩
